import Mathlib

/-! # node-server: meta-transaction relay handlers

Shallow embedding of the two `POST /relay` handlers of the repository:

* `src/index.js`  : the provider variant (OpenZeppelin Defender relay client);
* `src/local.js`  : the local-signing variant (ethers wallet against a JSON-RPC node).

A handler is embedded as a pure function from the parsed request body and the
behaviour of the external collaborators (relay client, ethers library, chain)
to the HTTP response together with the ordered list of external calls it made.
Console logging is not modelled: it never changes control flow.
-/

set_option maxRecDepth 20000

namespace NodeServer

/-! ## JavaScript values -/

/-- A JavaScript number: `NaN`, an infinity, or a finite value. -/
inductive JsNum where
  | nan
  | inf (negative : Bool)
  | fin (q : ℚ)

/-- JavaScript values that can occur in a parsed request body or be handed
back by a library: `undefined`, `null`, booleans, numbers, strings, arrays
and plain objects (an ordered property list). -/
inductive JsVal where
  | undefined
  | null
  | bool (b : Bool)
  | num (n : JsNum)
  | str (s : String)
  | arr (xs : List JsVal)
  | obj (props : List (String × JsVal))

/-- Truthiness of a number: `0`, `-0` and `NaN` are falsy. -/
def JsNum.truthy : JsNum → Bool
  | .nan => false
  | .inf _ => true
  | .fin q => decide (q ≠ 0)

/-- JavaScript `ToBoolean`: `undefined`, `null`, `false`, `0`, `NaN` and `""`
are falsy, everything else (arrays and objects included) is truthy. -/
def JsVal.truthy : JsVal → Bool
  | .undefined => false
  | .null => false
  | .bool b => b
  | .num n => n.truthy
  | .str s => !s.data.isEmpty
  | .arr _ => true
  | .obj _ => true

/-- The test `typeof v === "string"`. -/
def JsVal.isString : JsVal → Bool
  | .str _ => true
  | _ => false

/-- The test `Array.isArray(v)`. -/
def JsVal.isArray : JsVal → Bool
  | .arr _ => true
  | _ => false

/-- Own-property lookup in a property list (an object holds each key once);
an absent key reads as `undefined`. -/
def lookupProp : List (String × JsVal) → String → JsVal
  | [], _ => .undefined
  | (k, v) :: rest, key => if k = key then v else lookupProp rest key

/-- Property read `v.key` on a value that is neither `undefined` nor `null`,
for a key that is not a built-in of the primitive wrappers: plain objects
answer from their property list, every other value answers `undefined`. -/
def JsVal.prop : JsVal → String → JsVal
  | .obj props, key => lookupProp props key
  | _, _ => .undefined

/-- The expression `a || b`. -/
def JsVal.orElse (a b : JsVal) : JsVal :=
  if a.truthy then a else b

/-- The parsed request body `req.body`: an object, as the JSON and
urlencoded body parsers leave it (`{}` when nothing was parsed). -/
abbrev Body := List (String × JsVal)

/-- A thrown `Error`: its `message` and its `response` property
(`undefined` unless the HTTP client attached one). -/
structure JsError where
  message : String
  response : JsVal

/-- The error made by `new Error(message)`. -/
def JsError.new (message : String) : JsError :=
  { message := message, response := .undefined }

/-- What `res.status(code).json(body)` sends; `res.json(body)` alone sends
status 200. -/
structure Response where
  status : Nat
  body : JsVal

/-- The body `{ error: msg }`. -/
def errorBody (msg : String) : JsVal :=
  .obj [("error", .str msg)]

/-! ## String containment -/

/-- Search for `needle` as a contiguous run inside `hay`. -/
def includesChars (hay needle : List Char) : Bool :=
  needle.isPrefixOf hay ||
    match hay with
    | [] => false
    | _ :: rest => includesChars rest needle

/-- The method `String.prototype.includes`. -/
def includes (s sub : String) : Bool :=
  includesChars s.data sub.data

/-- Property read `v.key` as the runtime performs it: reading a property of
`undefined` or `null` throws a `TypeError`. -/
def readProp (v : JsVal) (key : String) : Except JsError JsVal :=
  match v with
  | .undefined =>
    .error (JsError.new ("Cannot read properties of undefined (reading \x27" ++ key ++ "\x27)"))
  | .null =>
    .error (JsError.new ("Cannot read properties of null (reading \x27" ++ key ++ "\x27)"))
  | w => .ok (w.prop key)

/-! ## Provider variant (`src/index.js`) -/

namespace Provider

/-- The transaction descriptor `tx` handed to `relaySigner.sendTransaction`
(`to_` is its `to` property). -/
structure TxDescriptor where
  to_ : JsVal
  data : JsVal
  gasLimit : JsNum
  chainId : JsNum
  speed : JsVal
  value : JsVal

/-- Outbound calls of the provider variant. -/
inductive Call where
  | getRelayer
  | sendTransaction (tx : TxDescriptor)

/-- The collaborators of the provider variant: the runtime coercion `Number`,
which returns a number or throws a `TypeError` (as it does on an object that
cannot be converted to a primitive), and the two methods of the relay client
`relaySigner`, each of which either resolves to a value or throws an `Error`.
(A call that never settles is outside this model.) -/
structure Env where
  number : JsVal → Except JsError JsNum
  getRelayer : Except JsError JsVal
  sendTransaction : TxDescriptor → Except JsError JsVal

/-- What one request did: the outbound calls in order, and the response
sent. -/
structure Run where
  response : Response
  calls : List Call

/-- The `catch (error)` block of the handler (index.js lines 94-131): the
error message is classified by substring tests, in this order. -/
def classify (error : JsError) : Response :=
  if includes error.message "authentication" ||
      includes error.message "Failed to connect to relayer" ||
      includes error.message "API key and secret are required" then
    { status := 500,
      body := errorBody "Authentication failed: Invalid or missing API credentials" }
  else if includes error.message "Insufficient funds" then
    { status := 403, body := errorBody "Relayer has insufficient funds" }
  else if includes error.message "status code 400" then
    { status := 400,
      body := .obj
        [("error", .str "Invalid transaction parameters"),
         ("details",
            if error.response.truthy && (error.response.prop "data").truthy then
              error.response.prop "data"
            else .str error.message)] }
  else
    { status := 500, body := errorBody ("Relay error: " ++ error.message) }

/-- The `try` block of the handler (index.js lines 41-93): the calls made, and
either the response it returned or the error it threw. The properties of the
descriptor are evaluated in source order, so `Number(gasLimit)` and then
`Number(chainId)` run, and may throw, before `sendTransaction` is called. -/
def relayTry (env : Env) (body : Body) : List Call × Except JsError Response :=
  let to_ := lookupProp body "to"
  let data := lookupProp body "data"
  let gasLimit := lookupProp body "gasLimit"
  let chainId := lookupProp body "chainId"
  let speed := lookupProp body "speed"
  if !to_.truthy || !gasLimit.truthy || !chainId.truthy then
    ([], .ok { status := 400,
               body := errorBody "Missing required fields: to, gasLimit, or chainId" })
  else
    match env.getRelayer with
    | .error error =>
      ([.getRelayer],
        .error (JsError.new ("Failed to connect to relayer: " ++ error.message)))
    | .ok _ =>
      match env.number gasLimit with
      | .error error => ([.getRelayer], .error error)
      | .ok gasLimitNumber =>
        match env.number chainId with
        | .error error => ([.getRelayer], .error error)
        | .ok chainIdNumber =>
          let tx : TxDescriptor :=
            { to_ := to_
              data := data.orElse (.str "0x")
              gasLimit := gasLimitNumber
              chainId := chainIdNumber
              speed := speed.orElse (.str "fast")
              value := .str "0" }
          match env.sendTransaction tx with
          | .error error => ([.getRelayer, .sendTransaction tx], .error error)
          | .ok response =>
            match readProp response "hash" with
            | .error error => ([.getRelayer, .sendTransaction tx], .error error)
            | .ok hash =>
              ([.getRelayer, .sendTransaction tx],
                .ok { status := 200, body := .obj [("hash", hash)] })

/-- The handler `app.post("/relay", ...)` of index.js: the `try` block, with
any thrown error answered by the `catch` block. -/
def relay (env : Env) (body : Body) : Run :=
  match relayTry env body with
  | (calls, .ok response) => { response := response, calls := calls }
  | (calls, .error error) => { response := classify error, calls := calls }

end Provider

/-! ## Local-signing variant (`src/local.js`) -/

namespace Local

/-- Start-up configuration of local.js: the two contract addresses taken
from the environment and the two ABI artifacts loaded from JSON files that
are not part of this repository (kept as arbitrary values). -/
structure Config where
  USDT_ADDRESS : String
  STAKING_ADDRESS : String
  MockUSDT_ABI : JsVal
  StakingContract_ABI : JsVal

/-- The three components read off `ethers.Signature.from(signature)`. -/
structure SignatureParts where
  v : JsVal
  r : JsVal
  s : JsVal

/-- The contract object made by `new ethers.Contract(address, abi, signer)`. -/
structure Contract where
  target : JsVal
  abi : JsVal

/-- The transaction response a contract method resolves to: its `hash`, and
what `tx.wait()` does (throws, or resolves to a receipt value). -/
structure Tx where
  hash : JsVal
  wait : Except JsError JsVal

/-- Calls of the local-signing variant into its collaborators, in the order
of the source. -/
inductive Call where
  | getContractAbi (contractAddress : JsVal)
  | newContract (contractAddress abi : JsVal)
  | signatureFrom (signature : JsVal)
  | contractMethod (contract : Contract) (functionName : JsVal) (args : List JsVal)
  | wait

/-- Whether a call is the invocation of the contract method. -/
def Call.isContractMethod : Call → Bool
  | .contractMethod _ _ _ => true
  | _ => false

/-- Whether a call is the signature decomposition. -/
def Call.isSignatureFrom : Call → Bool
  | .signatureFrom _ => true
  | _ => false

/-- The collaborators of the local-signing variant: the address format test
of ethers on strings, the runtime `String.prototype.toLowerCase`, the
signature decomposer, the contract constructor and the method invocation on
the chain. Each fallible one either returns or throws an `Error`. (A call
that never settles is outside this model.) -/
structure Env where
  isAddressString : String → Bool
  toLowerCase : String → String
  signatureFrom : JsVal → Except JsError SignatureParts
  newContract : JsVal → JsVal → Except JsError Contract
  callMethod : Contract → JsVal → List JsVal → Except JsError Tx

/-- What one request did: the calls in order, and the response sent. -/
structure Run where
  response : Response
  calls : List Call

/-- The test `ethers.isAddress(value)`: never throws, and is `false` for
everything that is not a string. -/
def isAddress (env : Env) : JsVal → Bool
  | .str s => env.isAddressString s
  | _ => false

/-- The function `getContractAbi` (local.js lines 79-87). A receiver without
a `toLowerCase` method makes the call throw a `TypeError`. -/
def getContractAbi (cfg : Config) (env : Env) (contractAddress : JsVal) :
    Except JsError JsVal :=
  match contractAddress with
  | .str a =>
    if env.toLowerCase a = env.toLowerCase cfg.USDT_ADDRESS then
      .ok cfg.MockUSDT_ABI
    else if env.toLowerCase a = env.toLowerCase cfg.STAKING_ADDRESS then
      .ok cfg.StakingContract_ABI
    else
      .error (JsError.new "Unknown contract address")
  | _ => .error (JsError.new "contractAddress.toLowerCase is not a function")

/-- The inner `try` block around the confirmation wait (local.js lines
137-143): await the receipt, then read `receipt.hash` and `receipt.status`
for logging. -/
def confirm (tx : Tx) : Except JsError Unit :=
  match tx.wait with
  | .error waitError => .error waitError
  | .ok receipt =>
    match readProp receipt "hash" with
    | .error waitError => .error waitError
    | .ok _ =>
      match readProp receipt "status" with
      | .error waitError => .error waitError
      | .ok _ => .ok ()

/-- The `try` block of the handler (local.js lines 90-149): the calls made,
and either the response it sent or the error it threw. -/
def relayTry (cfg : Config) (env : Env) (body : Body) :
    List Call × Except JsError Response :=
  let contractAddress := lookupProp body "contractAddress"
  let functionName := lookupProp body "functionName"
  let args := lookupProp body "args"
  let userAddress := lookupProp body "userAddress"
  let signature := lookupProp body "signature"
  if !isAddress env contractAddress then
    ([], .ok { status := 400, body := errorBody "Invalid contract address" })
  else if !isAddress env userAddress then
    ([], .ok { status := 400, body := errorBody "Invalid user address" })
  else if !functionName.truthy || !functionName.isString then
    ([], .ok { status := 400, body := errorBody "Invalid function name" })
  else
    match args with
    | .arr argList =>
      if !signature.truthy || !signature.isString then
        ([], .ok { status := 400, body := errorBody "Invalid signature" })
      else
        match getContractAbi cfg env contractAddress with
        | .error error => ([.getContractAbi contractAddress], .error error)
        | .ok abi =>
          match env.newContract contractAddress abi with
          | .error error =>
            ([.getContractAbi contractAddress, .newContract contractAddress abi],
              .error error)
          | .ok contract =>
            match env.signatureFrom signature with
            | .error _ =>
              ([.getContractAbi contractAddress, .newContract contractAddress abi,
                .signatureFrom signature],
                .ok { status := 400, body := errorBody "Invalid signature format" })
            | .ok sig =>
              let callArgs := argList ++ [sig.v, sig.r, sig.s]
              match env.callMethod contract functionName callArgs with
              | .error error =>
                ([.getContractAbi contractAddress, .newContract contractAddress abi,
                  .signatureFrom signature,
                  .contractMethod contract functionName callArgs],
                  .error error)
              | .ok tx =>
                match confirm tx with
                | .ok _ =>
                  ([.getContractAbi contractAddress, .newContract contractAddress abi,
                    .signatureFrom signature,
                    .contractMethod contract functionName callArgs, .wait],
                    .ok { status := 200,
                          body := .obj [("success", .bool true), ("txHash", tx.hash)] })
                | .error _ =>
                  ([.getContractAbi contractAddress, .newContract contractAddress abi,
                    .signatureFrom signature,
                    .contractMethod contract functionName callArgs, .wait],
                    .ok { status := 200,
                          body := .obj [("success", .bool true), ("txHash", tx.hash)] })
    | _ => ([], .ok { status := 400, body := errorBody "Invalid arguments" })

/-- The handler `app.post("/relay", ...)` of local.js: the `try` block, with
any thrown error answered 500 with body `{error: error.message}`. -/
def relay (cfg : Config) (env : Env) (body : Body) : Run :=
  match relayTry cfg env body with
  | (calls, .ok response) => { response := response, calls := calls }
  | (calls, .error error) =>
    { response := { status := 500, body := errorBody error.message }, calls := calls }

end Local

/-! ## Reading of the specification, and worked inputs -/

/-- Whether a number is an integer (the specification asks numeric fields to
be coercible to integers). -/
def JsNum.isInteger : JsNum → Bool
  | .fin q => decide (q.den = 1)
  | _ => false

/-- Specification wording "`v` if supplied else `d`": a property that is
absent from the body takes the default, every supplied value is kept. -/
def suppliedOr (v d : JsVal) : JsVal :=
  match v with
  | .undefined => d
  | w => w

namespace Provider

/-- The descriptor in the words of the specification: `data` if supplied else
`"0x"`, `speed` if supplied else `"fast"`, value `"0"`, with `gasLimit` and
`chainId` the numbers that `Number(gasLimit)` and `Number(chainId)` gave. -/
def specDescriptor (body : Body) (gasLimit chainId : JsNum) : TxDescriptor :=
  { to_ := lookupProp body "to"
    data := suppliedOr (lookupProp body "data") (.str "0x")
    gasLimit := gasLimit
    chainId := chainId
    speed := suppliedOr (lookupProp body "speed") (.str "fast")
    value := .str "0" }

/-- Value of the decimal digit string `cs` read after the prefix value `acc`. -/
def digitsValue (acc : Nat) : List Char → Nat
  | [] => acc
  | c :: cs => digitsValue (10 * acc + (c.toNat - 48)) cs

/-- The coercion `Number` on the values the worked inputs use: numbers are
kept, `null` and booleans become `0` or `1`, a string of decimal digits
becomes its value and the empty string `0`; `undefined` and strings with any
other character (such as `"abc"`) become `NaN`. A parsed object has no
callable property, so one with an own `toString` property cannot be converted
to a primitive and `Number` throws a `TypeError`; any other parsed object
becomes `NaN`. Arrays are not among the worked inputs and read as `NaN`
here. -/
def sampleNumber : JsVal → Except JsError JsNum
  | .num n => .ok n
  | .null => .ok (.fin 0)
  | .bool b => .ok (.fin (if b then 1 else 0))
  | .str s =>
    if s.data.all Char.isDigit then .ok (.fin (digitsValue 0 s.data)) else .ok .nan
  | .obj props =>
    if props.any (fun p => p.1 == "toString") then
      .error (JsError.new "Cannot convert object to primitive value")
    else .ok .nan
  | _ => .ok .nan

/-- A relay client that is reachable and accepts every transaction. -/
def reachable : Env :=
  { number := sampleNumber
    getRelayer := .ok (.obj [("relayerId", .str "r1")])
    sendTransaction := fun _ => .ok (.obj [("hash", .str "0xabc")]) }

/-- A relay client whose liveness check throws `Error("Insufficient funds")`. -/
def livenessFails : Env :=
  { number := sampleNumber
    getRelayer := .error (JsError.new "Insufficient funds")
    sendTransaction := fun _ => .ok (.obj [("hash", .str "0xabc")]) }

/-- A relay client that is reachable but whose submission throws
`Error("Insufficient funds")`. -/
def submissionFails : Env :=
  { number := sampleNumber
    getRelayer := .ok (.obj [("relayerId", .str "r1")])
    sendTransaction := fun _ => .error (JsError.new "Insufficient funds") }

/-- A complete request: `to`, `gasLimit` and `chainId`, nothing else. -/
def minimalBody : Body :=
  [("to", .str "0x5FbDB2315678afecb367f032d93F642f64180aa3"),
   ("gasLimit", .num (.fin 21000)),
   ("chainId", .num (.fin 31337))]

/-- A request without `chainId`. -/
def noChainIdBody : Body :=
  [("to", .str "0x5FbDB2315678afecb367f032d93F642f64180aa3"),
   ("gasLimit", .num (.fin 21000))]

/-- A complete request that supplies the empty string as `data`. -/
def emptyDataBody : Body :=
  [("to", .str "0x5FbDB2315678afecb367f032d93F642f64180aa3"),
   ("data", .str ""),
   ("gasLimit", .num (.fin 21000)),
   ("chainId", .num (.fin 31337))]

/-- A request whose `gasLimit` is the object `{"toString": 0}`. -/
def objectGasBody : Body :=
  [("to", .str "0x5FbDB2315678afecb367f032d93F642f64180aa3"),
   ("gasLimit", .obj [("toString", .num (.fin 0))]),
   ("chainId", .num (.fin 31337))]

/-- A request whose `gasLimit` is the string `"abc"`. -/
def abcGasBody : Body :=
  [("to", .str "0x5FbDB2315678afecb367f032d93F642f64180aa3"),
   ("gasLimit", .str "abc"),
   ("chainId", .num (.fin 31337))]

end Provider

namespace Local

/-- Specification wording "non-empty string". -/
def isNonEmptyString : JsVal → Bool
  | .str s => decide (s ≠ "")
  | _ => false

/-- The five field checks in the words and order of the specification, each
with the message the specification attaches to its failure: the contract
address is a valid address, the user address is a valid address, the function
name is a non-empty string, the arguments are an array, the signature is a
non-empty string. -/
def fieldChecks (env : Env) (body : Body) : List (Bool × String) :=
  [(isAddress env (lookupProp body "contractAddress"), "Invalid contract address"),
   (isAddress env (lookupProp body "userAddress"), "Invalid user address"),
   (isNonEmptyString (lookupProp body "functionName"), "Invalid function name"),
   ((lookupProp body "args").isArray, "Invalid arguments"),
   (isNonEmptyString (lookupProp body "signature"), "Invalid signature")]

/-- The message of the first check that fails, if any does. -/
def firstFailure : List (Bool × String) → Option String
  | [] => none
  | (passed, msg) :: rest => if passed then firstFailure rest else some msg

/-- Specification wording "the confirmation wait fails": `tx.wait()` throws,
or it yields a receipt that cannot be read (`null` or `undefined`). -/
def waitFails (tx : Tx) : Prop :=
  (∃ waitError, tx.wait = .error waitError) ∨ tx.wait = .ok .null ∨
    tx.wait = .ok .undefined

/-- Lower-casing of the letters `A` to `Z`, which is what
`String.prototype.toLowerCase` does on the characters of an address. -/
def asciiLower (s : String) : String :=
  String.mk (s.data.map Char.toLower)

/-- Whether a character is a hexadecimal digit. -/
def isHexDigit (c : Char) : Bool :=
  c.isDigit || (decide ('a' ≤ c) && decide (c ≤ 'f')) ||
    (decide ('A' ≤ c) && decide (c ≤ 'F'))

/-- Address format used by the worked inputs: `0x` followed by forty
hexadecimal digits. -/
def isHexAddress (s : String) : Bool :=
  match s.data with
  | '0' :: 'x' :: digits => decide (digits.length = 40) && digits.all isHexDigit
  | _ => false

/-- Configuration of the worked inputs: the first two addresses a local
development chain deploys to, with placeholder ABIs. -/
def sampleConfig : Config :=
  { USDT_ADDRESS := "0x5FbDB2315678afecb367f032d93F642f64180aa3"
    STAKING_ADDRESS := "0xe7f1725E7734CE288F8367e1Bb143E90bb3F0512"
    MockUSDT_ABI := .arr [.str "function permit(address,uint256,uint8,bytes32,bytes32)"]
    StakingContract_ABI :=
      .arr [.str "function stakeFor(address,uint256,uint8,bytes32,bytes32)"] }

/-- Collaborators of the worked inputs: a signature parses exactly when it is
a string of 132 characters (`0x` and 65 bytes), construction of the contract
object succeeds, the method call resolves to a transaction with hash
`0xfeed`, and the confirmation wait of that transaction throws. -/
def sampleEnv : Env :=
  { isAddressString := isHexAddress
    toLowerCase := asciiLower
    signatureFrom := fun signature =>
      match signature with
      | .str s =>
        if s.data.length = 132 then
          .ok { v := .num (.fin 27), r := .str "0x01", s := .str "0x02" }
        else .error (JsError.new "invalid raw signature length")
      | _ => .error (JsError.new "invalid signature")
    newContract := fun target abi => .ok { target := target, abi := abi }
    callMethod := fun _ _ _ =>
      .ok { hash := .str "0xfeed", wait := .error (JsError.new "timeout exceeded") } }

/-- A 65-byte signature string: `0x`, sixty-four bytes `ab`, then `1b`. -/
def sampleSignature : String :=
  String.mk ('0' :: 'x' :: ((List.replicate 64 ['a', 'b']).flatten ++ ['1', 'b']))

/-- A well-formed request to the first configured contract, its address
written in lower case. -/
def validBody : Body :=
  [("contractAddress", .str "0x5fbdb2315678afecb367f032d93f642f64180aa3"),
   ("functionName", .str "permit"),
   ("args", .arr [.str "0x70997970C51812dc3A010C7d01b50e0d17dc79C8", .num (.fin 100)]),
   ("userAddress", .str "0x70997970C51812dc3A010C7d01b50e0d17dc79C8"),
   ("signature", .str sampleSignature)]

/-- The same request with a signature that does not parse. -/
def badSignatureBody : Body :=
  [("contractAddress", .str "0x5fbdb2315678afecb367f032d93f642f64180aa3"),
   ("functionName", .str "permit"),
   ("args", .arr [.str "0x70997970C51812dc3A010C7d01b50e0d17dc79C8", .num (.fin 100)]),
   ("userAddress", .str "0x70997970C51812dc3A010C7d01b50e0d17dc79C8"),
   ("signature", .str "0x1234")]

/-- A request with a signature that does not parse, addressed to a contract
that is not one of the two configured ones. -/
def unknownContractBody : Body :=
  [("contractAddress", .str "0x9fe46736679d2d9a65f0992f2272de9f3c7fa6e0"),
   ("functionName", .str "permit"),
   ("args", .arr [.str "0x70997970C51812dc3A010C7d01b50e0d17dc79C8", .num (.fin 100)]),
   ("userAddress", .str "0x70997970C51812dc3A010C7d01b50e0d17dc79C8"),
   ("signature", .str "0x1234")]

/-- A request with a signature that does not parse and a contract address
that is not an address. -/
def notAnAddressBody : Body :=
  [("contractAddress", .str "not-an-address"),
   ("functionName", .str "permit"),
   ("args", .arr []),
   ("userAddress", .str "0x70997970C51812dc3A010C7d01b50e0d17dc79C8"),
   ("signature", .str "0x1234")]

/-- A request whose `args` is not an array and whose signature is empty. -/
def badArgsBody : Body :=
  [("contractAddress", .str "0x5fbdb2315678afecb367f032d93f642f64180aa3"),
   ("functionName", .str "permit"),
   ("args", .str "100"),
   ("userAddress", .str "0x70997970C51812dc3A010C7d01b50e0d17dc79C8"),
   ("signature", .str "")]

end Local

/-! ## Lemmas on string containment -/

theorem includesChars_of_isPrefixOf {hay needle : List Char}
    (h : needle.isPrefixOf hay = true) : includesChars hay needle = true := by
  cases hay <;> simp [includesChars, h]

/-- A string that starts with `needle` still contains it after anything is
appended. -/
theorem includes_append_of_isPrefixOf (s needle m : String)
    (h : needle.data.isPrefixOf s.data = true) : includes (s ++ m) needle = true := by
  unfold includes
  apply includesChars_of_isPrefixOf
  rw [String.data_append]
  exact List.isPrefixOf_iff_prefix.mpr
    ((List.isPrefixOf_iff_prefix.mp h).trans (List.prefix_append _ _))

/-! ## Provider variant: control flow -/

namespace Provider

/-- A request with a falsy required field is answered 400 before any call. -/
theorem relay_of_falsy (env : Env) (body : Body)
    (h : (!(lookupProp body "to").truthy || !(lookupProp body "gasLimit").truthy ||
          !(lookupProp body "chainId").truthy) = true) :
    relay env body =
      { response := { status := 400,
                      body := errorBody "Missing required fields: to, gasLimit, or chainId" },
        calls := [] } := by
  simp only [relay, relayTry, h, if_true]

/-- With the three required fields truthy the `try` block reaches the
liveness check. -/
theorem relayTry_of_truthy (env : Env) (body : Body)
    (hto : (lookupProp body "to").truthy = true)
    (hgas : (lookupProp body "gasLimit").truthy = true)
    (hchain : (lookupProp body "chainId").truthy = true) :
    relayTry env body =
      match env.getRelayer with
      | .error error =>
        ([.getRelayer],
          .error (JsError.new ("Failed to connect to relayer: " ++ error.message)))
      | .ok _ =>
        match env.number (lookupProp body "gasLimit") with
        | .error error => ([.getRelayer], .error error)
        | .ok gasLimitNumber =>
          match env.number (lookupProp body "chainId") with
          | .error error => ([.getRelayer], .error error)
          | .ok chainIdNumber =>
            let tx : TxDescriptor :=
              { to_ := lookupProp body "to"
                data := (lookupProp body "data").orElse (.str "0x")
                gasLimit := gasLimitNumber
                chainId := chainIdNumber
                speed := (lookupProp body "speed").orElse (.str "fast")
                value := .str "0" }
            match env.sendTransaction tx with
            | .error error => ([.getRelayer, .sendTransaction tx], .error error)
            | .ok response =>
              match readProp response "hash" with
              | .error error => ([.getRelayer, .sendTransaction tx], .error error)
              | .ok hash =>
                ([.getRelayer, .sendTransaction tx],
                  .ok { status := 200, body := .obj [("hash", hash)] }) := by
  simp [relayTry, hto, hgas, hchain]

/-- The calls of a run are those of its `try` block. -/
theorem relay_calls (env : Env) (body : Body) :
    (relay env body).calls = (relayTry env body).1 := by
  unfold relay
  split <;> rename_i heq <;> simp [heq]

/-- The calls of a run whose three required fields are truthy, whose liveness
check succeeds and whose two coercions return numbers: the liveness check,
then one submission. -/
theorem relay_calls_of_live (env : Env) (body : Body) (info : JsVal) (g c : JsNum)
    (hto : (lookupProp body "to").truthy = true)
    (hgas : (lookupProp body "gasLimit").truthy = true)
    (hchain : (lookupProp body "chainId").truthy = true)
    (hlive : env.getRelayer = .ok info)
    (hg : env.number (lookupProp body "gasLimit") = .ok g)
    (hc : env.number (lookupProp body "chainId") = .ok c) :
    (relay env body).calls =
      [.getRelayer,
       .sendTransaction
         { to_ := lookupProp body "to"
           data := (lookupProp body "data").orElse (.str "0x")
           gasLimit := g
           chainId := c
           speed := (lookupProp body "speed").orElse (.str "fast")
           value := .str "0" }] := by
  rw [relay_calls, relayTry_of_truthy env body hto hgas hchain, hlive]
  simp only [hg, hc]
  split
  · rfl
  · split <;> rfl

/-- A run whose three required fields are truthy, whose liveness check
succeeds and in which `Number(gasLimit)` throws, or returns and
`Number(chainId)` throws: the thrown error is classified, and the liveness
check is the only call. -/
theorem relay_of_number_throws (env : Env) (body : Body) (info : JsVal) (error : JsError)
    (hto : (lookupProp body "to").truthy = true)
    (hgas : (lookupProp body "gasLimit").truthy = true)
    (hchain : (lookupProp body "chainId").truthy = true)
    (hlive : env.getRelayer = .ok info)
    (hthrow : env.number (lookupProp body "gasLimit") = .error error ∨
      ((∃ g, env.number (lookupProp body "gasLimit") = .ok g) ∧
        env.number (lookupProp body "chainId") = .error error)) :
    relay env body = { response := classify error, calls := [.getRelayer] } := by
  unfold relay
  rw [relayTry_of_truthy env body hto hgas hchain, hlive]
  rcases hthrow with hg | ⟨⟨g, hg⟩, hc⟩
  · simp only [hg]
  · simp only [hg, hc]

/-- C1. Provider variant: when `to`, `gasLimit` or `chainId` is missing from
the request body, the response is 400 with body
`{error: "Missing required fields: to, gasLimit, or chainId"}` and no call is
made to the relay client (neither `getRelayer` nor `sendTransaction`). -/
theorem relay_missing_required_field (env : Env) (body : Body)
    (h : lookupProp body "to" = .undefined ∨ lookupProp body "gasLimit" = .undefined ∨
         lookupProp body "chainId" = .undefined) :
    (relay env body).response =
        { status := 400,
          body := errorBody "Missing required fields: to, gasLimit, or chainId" } ∧
      (relay env body).calls = [] := by
  have hf : (!(lookupProp body "to").truthy || !(lookupProp body "gasLimit").truthy ||
      !(lookupProp body "chainId").truthy) = true := by
    rcases h with h | h | h <;> simp [h, JsVal.truthy]
  rw [relay_of_falsy env body hf]
  exact ⟨rfl, rfl⟩

/-- Worked input for C1: the request without `chainId`, against a reachable
relay client. -/
theorem relay_missing_required_field_witness :
    (lookupProp noChainIdBody "to" = .undefined ∨
        lookupProp noChainIdBody "gasLimit" = .undefined ∨
        lookupProp noChainIdBody "chainId" = .undefined) ∧
      (relay reachable noChainIdBody).response =
        { status := 400,
          body := errorBody "Missing required fields: to, gasLimit, or chainId" } ∧
      (relay reachable noChainIdBody).calls = [] :=
  ⟨Or.inr (Or.inr rfl),
    relay_missing_required_field reachable noChainIdBody (Or.inr (Or.inr rfl))⟩

/-- C4. Provider variant: with `to`, `gasLimit` and `chainId` truthy, a
liveness check `getRelayer` that throws an error, whatever its message, is
answered 500 with body
`{error: "Authentication failed: Invalid or missing API credentials"}`, and
the only call made is the liveness check (`sendTransaction` is not called). -/
theorem relay_liveness_throws (env : Env) (body : Body) (error : JsError)
    (hto : (lookupProp body "to").truthy = true)
    (hgas : (lookupProp body "gasLimit").truthy = true)
    (hchain : (lookupProp body "chainId").truthy = true)
    (hlive : env.getRelayer = .error error) :
    (relay env body).response =
        { status := 500,
          body := errorBody "Authentication failed: Invalid or missing API credentials" } ∧
      (relay env body).calls = [.getRelayer] := by
  unfold relay
  rw [relayTry_of_truthy env body hto hgas hchain, hlive]
  have hinc : includes ("Failed to connect to relayer: " ++ error.message)
      "Failed to connect to relayer" = true :=
    includes_append_of_isPrefixOf _ _ _ (by decide)
  simp [classify, JsError.new, hinc]

/-- Worked input for C4: a complete request against a relay client whose
liveness check throws. -/
theorem relay_liveness_throws_witness :
    (relay livenessFails minimalBody).response =
        { status := 500,
          body := errorBody "Authentication failed: Invalid or missing API credentials" } ∧
      (relay livenessFails minimalBody).calls = [.getRelayer] :=
  relay_liveness_throws livenessFails minimalBody (JsError.new "Insufficient funds")
    (by decide) (by decide) (by decide) rfl

/-- C5, as stated, fails: the error thrown at the liveness check with message
"Insufficient funds" reaches the `catch` block as
"Failed to connect to relayer: Insufficient funds"; its message contains
"Insufficient funds", yet the response is the 500 authentication error, not
403. -/
theorem classify_insufficient_funds_shadowed :
    (relayTry livenessFails minimalBody).2 =
        .error (JsError.new "Failed to connect to relayer: Insufficient funds") ∧
      includes "Failed to connect to relayer: Insufficient funds" "Insufficient funds" = true ∧
      (relay livenessFails minimalBody).response =
        { status := 500,
          body := errorBody "Authentication failed: Invalid or missing API credentials" } ∧
      (relay livenessFails minimalBody).response.status ≠ 403 := by
  refine ⟨rfl, by decide, rfl, by decide⟩

/-- C5, amended. Provider variant: an error caught by the handler whose
message contains "Insufficient funds" and none of "authentication",
"Failed to connect to relayer", "API key and secret are required" is
answered 403 with body `{error: "Relayer has insufficient funds"}`. -/
theorem relay_insufficient_funds (env : Env) (body : Body) (error : JsError)
    (hcaught : (relayTry env body).2 = .error error)
    (hfunds : includes error.message "Insufficient funds" = true)
    (hauth : includes error.message "authentication" = false)
    (hconn : includes error.message "Failed to connect to relayer" = false)
    (hkey : includes error.message "API key and secret are required" = false) :
    (relay env body).response =
      { status := 403, body := errorBody "Relayer has insufficient funds" } := by
  unfold relay
  split
  · rename_i heq
    rw [heq] at hcaught
    simp at hcaught
  · rename_i heq
    rw [heq] at hcaught
    simp only [Except.error.injEq] at hcaught
    subst hcaught
    simp [classify, hfunds, hauth, hconn, hkey]

/-- Worked input for C5 amended: the submission throws
`Error("Insufficient funds")`. -/
theorem relay_insufficient_funds_witness :
    (relay submissionFails minimalBody).response =
      { status := 403, body := errorBody "Relayer has insufficient funds" } :=
  relay_insufficient_funds submissionFails minimalBody (JsError.new "Insufficient funds")
    rfl (by decide) (by decide) (by decide) (by decide)

/-- C7, as stated, fails: a request that supplies `data: ""` is submitted
with `data = "0x"`, whereas "data if supplied" is the supplied `""`; and a
request whose `gasLimit` is the object `{"toString": 0}` passes the
required-field check and the liveness check, yet nothing is submitted:
`Number(gasLimit)` throws and the response is the generic 500. -/
theorem relay_descriptor_not_supplied_data :
    lookupProp emptyDataBody "data" = .str "" ∧
      (specDescriptor emptyDataBody (.fin 21000) (.fin 31337)).data = .str "" ∧
      (relay reachable emptyDataBody).calls =
        [.getRelayer,
         .sendTransaction
           { to_ := .str "0x5FbDB2315678afecb367f032d93F642f64180aa3"
             data := .str "0x"
             gasLimit := .fin 21000
             chainId := .fin 31337
             speed := .str "fast"
             value := .str "0" }] ∧
      (relay reachable emptyDataBody).calls ≠
        [.getRelayer,
         .sendTransaction (specDescriptor emptyDataBody (.fin 21000) (.fin 31337))] ∧
      (lookupProp objectGasBody "gasLimit").truthy = true ∧
      (relay reachable objectGasBody).calls = [.getRelayer] ∧
      (relay reachable objectGasBody).response =
        { status := 500,
          body := errorBody "Relay error: Cannot convert object to primitive value" } := by
  refine ⟨rfl, rfl, rfl, ?_, rfl, rfl, rfl⟩
  intro h
  have h2 : (relay reachable emptyDataBody).calls =
      [.getRelayer,
       .sendTransaction
         { to_ := .str "0x5FbDB2315678afecb367f032d93F642f64180aa3"
           data := .str "0x"
           gasLimit := .fin 21000
           chainId := .fin 31337
           speed := .str "fast"
           value := .str "0" }] := rfl
  rw [h2] at h
  simp [specDescriptor, suppliedOr, emptyDataBody, lookupProp] at h

/-- C7, amended. Provider variant: for a request that passes the
required-field check, whose liveness check succeeds and for which
`Number(gasLimit)` and `Number(chainId)` return numbers (do not throw), the
calls are the liveness check followed by one `sendTransaction` whose
descriptor is `{to, data: data if truthy else "0x", gasLimit:
Number(gasLimit), chainId: Number(chainId), speed: speed if truthy else
"fast", value: "0"}`; in particular an omitted `data` is submitted as
`"0x"`, an omitted `speed` as `"fast"`, and `value` is always `"0"`. -/
theorem relay_descriptor (env : Env) (body : Body) (info : JsVal) (g c : JsNum)
    (hto : (lookupProp body "to").truthy = true)
    (hgas : (lookupProp body "gasLimit").truthy = true)
    (hchain : (lookupProp body "chainId").truthy = true)
    (hlive : env.getRelayer = .ok info)
    (hg : env.number (lookupProp body "gasLimit") = .ok g)
    (hc : env.number (lookupProp body "chainId") = .ok c) :
    ∃ tx : TxDescriptor,
      (relay env body).calls = [.getRelayer, .sendTransaction tx] ∧
      tx.to_ = lookupProp body "to" ∧
      tx.data = (if (lookupProp body "data").truthy then lookupProp body "data"
                 else .str "0x") ∧
      tx.gasLimit = g ∧
      tx.chainId = c ∧
      tx.speed = (if (lookupProp body "speed").truthy then lookupProp body "speed"
                  else .str "fast") ∧
      tx.value = .str "0" ∧
      (lookupProp body "data" = .undefined → tx.data = .str "0x") ∧
      (lookupProp body "speed" = .undefined → tx.speed = .str "fast") := by
  refine ⟨_, relay_calls_of_live env body info g c hto hgas hchain hlive hg hc,
    rfl, rfl, rfl, rfl, rfl, rfl, ?_, ?_⟩
  · intro h
    simp [h, JsVal.orElse, JsVal.truthy]
  · intro h
    simp [h, JsVal.orElse, JsVal.truthy]

/-- Worked input for C7 amended: a complete request with `data` and `speed`
omitted. -/
theorem relay_descriptor_witness :
    ∃ tx : TxDescriptor,
      (relay reachable minimalBody).calls = [.getRelayer, .sendTransaction tx] ∧
      tx.to_ = lookupProp minimalBody "to" ∧
      tx.data = (if (lookupProp minimalBody "data").truthy then lookupProp minimalBody "data"
                 else .str "0x") ∧
      tx.gasLimit = .fin 21000 ∧
      tx.chainId = .fin 31337 ∧
      tx.speed = (if (lookupProp minimalBody "speed").truthy then lookupProp minimalBody "speed"
                  else .str "fast") ∧
      tx.value = .str "0" ∧
      (lookupProp minimalBody "data" = .undefined → tx.data = .str "0x") ∧
      (lookupProp minimalBody "speed" = .undefined → tx.speed = .str "fast") :=
  relay_descriptor reachable minimalBody (.obj [("relayerId", .str "r1")])
    (.fin 21000) (.fin 31337) (by decide) (by decide) (by decide) rfl rfl rfl

/-- With the three required fields truthy the first call is the liveness
check. -/
theorem relay_head_of_truthy (env : Env) (body : Body)
    (hto : (lookupProp body "to").truthy = true)
    (hgas : (lookupProp body "gasLimit").truthy = true)
    (hchain : (lookupProp body "chainId").truthy = true) :
    (relay env body).calls.head? = some .getRelayer := by
  rw [relay_calls, relayTry_of_truthy env body hto hgas hchain]
  split
  · rfl
  · split
    · rfl
    · split
      · rfl
      · dsimp only
        split
        · rfl
        · split <;> rfl

/-- C10, as stated, fails: `gasLimit: "abc"` is present and coerces to `NaN`,
not an integer, yet the request is not rejected: the liveness check and the
submission are both called (with `gasLimit: NaN`) and the response is 200.
And the object `{"toString": 0}` as `gasLimit`, on which `Number` throws, is not
rejected with 400 before any call either: the liveness check is called and
the response is the generic 500. -/
theorem relay_non_integer_gasLimit_accepted :
    lookupProp abcGasBody "gasLimit" = .str "abc" ∧
      reachable.number (lookupProp abcGasBody "gasLimit") = .ok .nan ∧
      JsNum.isInteger .nan = false ∧
      (relay reachable abcGasBody).response =
        { status := 200, body := .obj [("hash", .str "0xabc")] } ∧
      (relay reachable abcGasBody).calls =
        [.getRelayer,
         .sendTransaction
           { to_ := .str "0x5FbDB2315678afecb367f032d93F642f64180aa3"
             data := .str "0x"
             gasLimit := .nan
             chainId := .fin 31337
             speed := .str "fast"
             value := .str "0" }] ∧
      reachable.number (lookupProp objectGasBody "gasLimit") =
        .error (JsError.new "Cannot convert object to primitive value") ∧
      (relay reachable objectGasBody).response =
        { status := 500,
          body := errorBody "Relay error: Cannot convert object to primitive value" } ∧
      (relay reachable objectGasBody).calls = [.getRelayer] :=
  ⟨rfl, rfl, rfl, rfl, rfl, rfl, rfl, rfl⟩

/-- C10, amended. Provider variant: the only validation is the truthiness of
`to`, `gasLimit` and `chainId`. The request is rejected with the 400
missing-fields error and no call to the relay client exactly when one of the
three is falsy; whether `gasLimit` or `chainId` coerces to an integer plays
no part. With all three truthy the liveness check is called; when it
succeeds and both coercions return numbers, the submission carries those
numbers as they are; when it succeeds and a coercion throws, the thrown error
is classified like any other and nothing is submitted. -/
theorem relay_rejects_iff_falsy (env : Env) (body : Body) :
    (((relay env body).response =
          { status := 400,
            body := errorBody "Missing required fields: to, gasLimit, or chainId" } ∧
        (relay env body).calls = []) ↔
      ((lookupProp body "to").truthy = false ∨ (lookupProp body "gasLimit").truthy = false ∨
        (lookupProp body "chainId").truthy = false)) ∧
    (((lookupProp body "to").truthy = true ∧ (lookupProp body "gasLimit").truthy = true ∧
        (lookupProp body "chainId").truthy = true) →
      (relay env body).calls.head? = some .getRelayer ∧
      (∀ info g c, env.getRelayer = .ok info →
        env.number (lookupProp body "gasLimit") = .ok g →
        env.number (lookupProp body "chainId") = .ok c →
        ∃ tx : TxDescriptor,
          (relay env body).calls = [.getRelayer, .sendTransaction tx] ∧
          tx.gasLimit = g ∧ tx.chainId = c) ∧
      (∀ info error, env.getRelayer = .ok info →
        (env.number (lookupProp body "gasLimit") = .error error ∨
          ((∃ g, env.number (lookupProp body "gasLimit") = .ok g) ∧
            env.number (lookupProp body "chainId") = .error error)) →
        (relay env body).response = classify error ∧
          (relay env body).calls = [.getRelayer])) := by
  refine ⟨⟨?_, ?_⟩, fun h => ⟨relay_head_of_truthy env body h.1 h.2.1 h.2.2,
    fun info g c hlive hg hc =>
      ⟨_, relay_calls_of_live env body info g c h.1 h.2.1 h.2.2 hlive hg hc, rfl, rfl⟩,
    fun info error hlive hthrow => ?_⟩⟩
  · rintro ⟨-, hcalls⟩
    by_contra hne
    simp only [not_or, Bool.not_eq_false] at hne
    have hhead := relay_head_of_truthy env body hne.1 hne.2.1 hne.2.2
    rw [hcalls] at hhead
    simp at hhead
  · intro h
    have hf : (!(lookupProp body "to").truthy || !(lookupProp body "gasLimit").truthy ||
        !(lookupProp body "chainId").truthy) = true := by
      rcases h with h | h | h <;> simp [h]
    rw [relay_of_falsy env body hf]
    exact ⟨rfl, rfl⟩
  · rw [relay_of_number_throws env body info error h.1 h.2.1 h.2.2 hlive hthrow]
    exact ⟨rfl, rfl⟩

end Provider

/-! ## Local-signing variant: control flow -/

namespace Local

/-- The source test `!v || typeof v !== "string"` fails exactly on the
non-empty strings. -/
theorem isNonEmptyString_eq (v : JsVal) :
    isNonEmptyString v = (v.truthy && v.isString) := by
  cases v with
  | str s =>
    obtain ⟨data⟩ := s
    cases data <;> simp [isNonEmptyString, JsVal.truthy, JsVal.isString, String.ext_iff]
  | _ => simp [isNonEmptyString, JsVal.truthy, JsVal.isString]

/-- All five checks pass exactly when no first failure exists. -/
theorem firstFailure_eq_none_iff (env : Env) (body : Body) :
    firstFailure (fieldChecks env body) = none ↔
      (isAddress env (lookupProp body "contractAddress") = true ∧
        isAddress env (lookupProp body "userAddress") = true ∧
        isNonEmptyString (lookupProp body "functionName") = true ∧
        (lookupProp body "args").isArray = true ∧
        isNonEmptyString (lookupProp body "signature") = true) := by
  simp only [fieldChecks, firstFailure]
  cases isAddress env (lookupProp body "contractAddress") <;>
    cases isAddress env (lookupProp body "userAddress") <;>
    cases isNonEmptyString (lookupProp body "functionName") <;>
    cases (lookupProp body "args").isArray <;>
    cases isNonEmptyString (lookupProp body "signature") <;> simp

/-- The calls of a run are those of its `try` block. -/
theorem relay_calls_eq_try (cfg : Config) (env : Env) (body : Body) :
    (relay cfg env body).calls = (relayTry cfg env body).1 := by
  unfold relay
  split <;> rename_i heq <;> simp [heq]

/-- After the five checks the `try` block goes on to ABI selection, contract
construction, signature decomposition, the method call and the wait. -/
theorem relayTry_of_checks (cfg : Config) (env : Env) (body : Body) (argList : List JsVal)
    (hchecks : firstFailure (fieldChecks env body) = none)
    (hargs : lookupProp body "args" = .arr argList) :
    relayTry cfg env body =
      match getContractAbi cfg env (lookupProp body "contractAddress") with
      | .error error => ([.getContractAbi (lookupProp body "contractAddress")], .error error)
      | .ok abi =>
        match env.newContract (lookupProp body "contractAddress") abi with
        | .error error =>
          ([.getContractAbi (lookupProp body "contractAddress"),
            .newContract (lookupProp body "contractAddress") abi], .error error)
        | .ok contract =>
          match env.signatureFrom (lookupProp body "signature") with
          | .error _ =>
            ([.getContractAbi (lookupProp body "contractAddress"),
              .newContract (lookupProp body "contractAddress") abi,
              .signatureFrom (lookupProp body "signature")],
              .ok { status := 400, body := errorBody "Invalid signature format" })
          | .ok sig =>
            match env.callMethod contract (lookupProp body "functionName")
                (argList ++ [sig.v, sig.r, sig.s]) with
            | .error error =>
              ([.getContractAbi (lookupProp body "contractAddress"),
                .newContract (lookupProp body "contractAddress") abi,
                .signatureFrom (lookupProp body "signature"),
                .contractMethod contract (lookupProp body "functionName")
                  (argList ++ [sig.v, sig.r, sig.s])], .error error)
            | .ok tx =>
              ([.getContractAbi (lookupProp body "contractAddress"),
                .newContract (lookupProp body "contractAddress") abi,
                .signatureFrom (lookupProp body "signature"),
                .contractMethod contract (lookupProp body "functionName")
                  (argList ++ [sig.v, sig.r, sig.s]), .wait],
                .ok { status := 200,
                      body := .obj [("success", .bool true), ("txHash", tx.hash)] }) := by
  obtain ⟨h1, h2, h3, -, h5⟩ := (firstFailure_eq_none_iff env body).mp hchecks
  rw [isNonEmptyString_eq] at h3 h5
  simp only [Bool.and_eq_true] at h3 h5
  simp only [relayTry, hargs, h1, h2, h3.1, h3.2, h5.1, h5.2, Bool.not_true, Bool.or_self,
    Bool.false_eq_true, if_false]
  split
  · rfl
  · split
    · rfl
    · split
      · rfl
      · split
        · rfl
        · split <;> rfl

/-- A request that passes the `args` check carries an array. -/
theorem args_of_checks (env : Env) (body : Body)
    (hchecks : firstFailure (fieldChecks env body) = none) :
    ∃ argList, lookupProp body "args" = .arr argList := by
  have h4 := ((firstFailure_eq_none_iff env body).mp hchecks).2.2.2.1
  cases hargs : lookupProp body "args" with
  | arr xs => exact ⟨xs, rfl⟩
  | _ => simp [hargs, JsVal.isArray] at h4

/-- When a check fails the `try` block answers 400 with the message of the
first failing check, having made no call. -/
theorem relayTry_of_failure (cfg : Config) (env : Env) (body : Body) (msg : String)
    (h : firstFailure (fieldChecks env body) = some msg) :
    relayTry cfg env body = ([], .ok { status := 400, body := errorBody msg }) := by
  simp only [fieldChecks, firstFailure, isNonEmptyString_eq] at h
  unfold relayTry
  cases h1 : isAddress env (lookupProp body "contractAddress") <;>
    cases h2 : isAddress env (lookupProp body "userAddress") <;>
    cases h3 : (lookupProp body "functionName").truthy <;>
    cases h4 : (lookupProp body "functionName").isString <;>
    cases h5 : (lookupProp body "signature").truthy <;>
    cases h6 : (lookupProp body "signature").isString <;>
    cases h7 : lookupProp body "args" <;>
    simp_all [JsVal.isArray]

/-- C6. Local-signing variant: when one of the five field checks fails, the
response is 400 with the message of the first failing check in the order
contract address, user address, function name, arguments, signature, and no
call is made at all (no ABI lookup, no contract construction, no signature
decomposition, no contract invocation, no wait). -/
theorem relay_validation_failure (cfg : Config) (env : Env) (body : Body) (msg : String)
    (h : firstFailure (fieldChecks env body) = some msg) :
    (relay cfg env body).response = { status := 400, body := errorBody msg } ∧
      (relay cfg env body).calls = [] := by
  unfold relay
  rw [relayTry_of_failure cfg env body msg h]
  exact ⟨rfl, rfl⟩

/-- Worked input for C6: `args` is not an array and the signature is empty;
the first failing check is the one on `args`. -/
theorem relay_validation_failure_witness :
    firstFailure (fieldChecks sampleEnv badArgsBody) = some "Invalid arguments" ∧
      (relay sampleConfig sampleEnv badArgsBody).response =
        { status := 400, body := errorBody "Invalid arguments" } ∧
      (relay sampleConfig sampleEnv badArgsBody).calls = [] :=
  ⟨by decide,
    relay_validation_failure sampleConfig sampleEnv badArgsBody "Invalid arguments"
      (by decide)⟩

/-- C3. Local-signing variant: a request that passes the five field checks
and whose contract address equals, ignoring case, neither `USDT_ADDRESS` nor
`STAKING_ADDRESS` is answered 500 with body
`{error: "Unknown contract address"}`; the only call made is the ABI lookup,
so neither the signature decomposition nor the contract method is reached. -/
theorem relay_unknown_contract (cfg : Config) (env : Env) (body : Body) (a : String)
    (hchecks : firstFailure (fieldChecks env body) = none)
    (haddr : lookupProp body "contractAddress" = .str a)
    (husdt : env.toLowerCase a ≠ env.toLowerCase cfg.USDT_ADDRESS)
    (hstaking : env.toLowerCase a ≠ env.toLowerCase cfg.STAKING_ADDRESS) :
    (relay cfg env body).response =
        { status := 500, body := errorBody "Unknown contract address" } ∧
      (relay cfg env body).calls = [.getContractAbi (.str a)] ∧
      (∀ c ∈ (relay cfg env body).calls,
        c.isSignatureFrom = false ∧ c.isContractMethod = false) := by
  obtain ⟨argList, hargs⟩ := args_of_checks env body hchecks
  have habi : getContractAbi cfg env (.str a) =
      .error (JsError.new "Unknown contract address") := by
    simp [getContractAbi, husdt, hstaking]
  have htry : relayTry cfg env body =
      ([.getContractAbi (.str a)], .error (JsError.new "Unknown contract address")) := by
    rw [relayTry_of_checks cfg env body argList hchecks hargs, haddr, habi]
  have hrun : relay cfg env body =
      { response := { status := 500, body := errorBody "Unknown contract address" },
        calls := [.getContractAbi (.str a)] } := by
    unfold relay
    rw [htry]
    rfl
  rw [hrun]
  refine ⟨rfl, rfl, ?_⟩
  intro c hc
  simp only [List.mem_singleton] at hc
  subst hc
  exact ⟨rfl, rfl⟩

/-- Worked input for C3: a well-formed request to an address that is neither
configured contract. -/
theorem relay_unknown_contract_witness :
    (relay sampleConfig sampleEnv unknownContractBody).response =
        { status := 500, body := errorBody "Unknown contract address" } ∧
      (relay sampleConfig sampleEnv unknownContractBody).calls =
        [.getContractAbi (.str "0x9fe46736679d2d9a65f0992f2272de9f3c7fa6e0")] ∧
      (∀ c ∈ (relay sampleConfig sampleEnv unknownContractBody).calls,
        c.isSignatureFrom = false ∧ c.isContractMethod = false) :=
  relay_unknown_contract sampleConfig sampleEnv unknownContractBody
    "0x9fe46736679d2d9a65f0992f2272de9f3c7fa6e0" (by decide) rfl (by decide) (by decide)

/-- C2, as stated, fails: with a signature that does not parse, a request to
an unconfigured contract is answered 500 "Unknown contract address", and a
request whose contract address is not an address is answered 400
"Invalid contract address"; neither response is the signature-format
error. -/
theorem relay_bad_signature_shadowed :
    sampleEnv.signatureFrom (lookupProp unknownContractBody "signature") =
        .error (JsError.new "invalid raw signature length") ∧
      (relay sampleConfig sampleEnv unknownContractBody).response =
        { status := 500, body := errorBody "Unknown contract address" } ∧
      (relay sampleConfig sampleEnv unknownContractBody).response.status ≠ 400 ∧
      sampleEnv.signatureFrom (lookupProp notAnAddressBody "signature") =
        .error (JsError.new "invalid raw signature length") ∧
      (relay sampleConfig sampleEnv notAnAddressBody).response =
        { status := 400, body := errorBody "Invalid contract address" } ∧
      (relay sampleConfig sampleEnv notAnAddressBody).response.body ≠
        errorBody "Invalid signature format" := by
  refine ⟨rfl, rfl, by decide, rfl, rfl, ?_⟩
  intro h
  have h2 : (relay sampleConfig sampleEnv notAnAddressBody).response.body =
      errorBody "Invalid contract address" := rfl
  rw [h2] at h
  simp [errorBody] at h

/-- C2, amended. Local-signing variant: for a request whose signature the
decomposer cannot parse, the contract method is never invoked, whatever the
other fields are; and when the request passes the five field checks, its
contract address selects an ABI and the contract object is constructed, the
response is 400 with body `{error: "Invalid signature format"}`. -/
theorem relay_bad_signature (cfg : Config) (env : Env) (body : Body) (sigError : JsError)
    (hsig : env.signatureFrom (lookupProp body "signature") = .error sigError) :
    (∀ c ∈ (relay cfg env body).calls, c.isContractMethod = false) ∧
      (∀ abi contract,
        firstFailure (fieldChecks env body) = none →
        getContractAbi cfg env (lookupProp body "contractAddress") = .ok abi →
        env.newContract (lookupProp body "contractAddress") abi = .ok contract →
        (relay cfg env body).response =
          { status := 400, body := errorBody "Invalid signature format" }) := by
  constructor
  · rw [relay_calls_eq_try]
    cases hfail : firstFailure (fieldChecks env body) with
    | some msg =>
      rw [relayTry_of_failure cfg env body msg hfail]
      simp
    | none =>
      obtain ⟨argList, hargs⟩ := args_of_checks env body hfail
      rw [relayTry_of_checks cfg env body argList hfail hargs]
      split
      · simp [Call.isContractMethod]
      · split
        · simp [Call.isContractMethod]
        · rw [hsig]
          simp [Call.isContractMethod]
  · intro abi contract hchecks habi hcontract
    obtain ⟨argList, hargs⟩ := args_of_checks env body hchecks
    unfold relay
    rw [relayTry_of_checks cfg env body argList hchecks hargs, habi]
    simp only [hcontract, hsig]

/-- Worked input for C2 amended: a well-formed request to the first
configured contract with the signature `"0x1234"`. -/
theorem relay_bad_signature_witness :
    (∀ c ∈ (relay sampleConfig sampleEnv badSignatureBody).calls,
        c.isContractMethod = false) ∧
      (relay sampleConfig sampleEnv badSignatureBody).response =
        { status := 400, body := errorBody "Invalid signature format" } :=
  ⟨(relay_bad_signature sampleConfig sampleEnv badSignatureBody
      (JsError.new "invalid raw signature length") rfl).1,
    (relay_bad_signature sampleConfig sampleEnv badSignatureBody
      (JsError.new "invalid raw signature length") rfl).2
      sampleConfig.MockUSDT_ABI
      { target := .str "0x5fbdb2315678afecb367f032d93f642f64180aa3",
        abi := sampleConfig.MockUSDT_ABI }
      (by decide) rfl rfl⟩

/-- C8. `getContractAbi` ignores letter case: two addresses with the same
lower-casing have the same outcome (the same ABI, or both throw "Unknown
contract address"); an address whose lower-casing is that of `USDT_ADDRESS`
yields `MockUSDT_ABI`, and one whose lower-casing is that of
`STAKING_ADDRESS` and not that of `USDT_ADDRESS` yields
`StakingContract_ABI`. -/
theorem getContractAbi_case_insensitive (cfg : Config) (env : Env) (a b : String)
    (h : env.toLowerCase a = env.toLowerCase b) :
    getContractAbi cfg env (.str a) = getContractAbi cfg env (.str b) ∧
      (env.toLowerCase a = env.toLowerCase cfg.USDT_ADDRESS →
        getContractAbi cfg env (.str a) = .ok cfg.MockUSDT_ABI) ∧
      (env.toLowerCase a = env.toLowerCase cfg.STAKING_ADDRESS →
        env.toLowerCase a ≠ env.toLowerCase cfg.USDT_ADDRESS →
        getContractAbi cfg env (.str a) = .ok cfg.StakingContract_ABI) ∧
      (env.toLowerCase a ≠ env.toLowerCase cfg.USDT_ADDRESS →
        env.toLowerCase a ≠ env.toLowerCase cfg.STAKING_ADDRESS →
        getContractAbi cfg env (.str a) =
          .error (JsError.new "Unknown contract address")) := by
  refine ⟨?_, ?_, ?_, ?_⟩
  · simp only [getContractAbi, h]
  · intro ha
    simp only [getContractAbi]
    rw [if_pos ha]
  · intro ha hna
    simp only [getContractAbi]
    rw [if_neg hna, if_pos ha]
  · intro ha hna
    simp only [getContractAbi]
    rw [if_neg ha, if_neg hna]

/-- Worked input for C8: the first configured address written in upper case
against the configured, checksummed spelling. -/
theorem getContractAbi_case_insensitive_witness :
    sampleEnv.toLowerCase "0x5FBDB2315678AFECB367F032D93F642F64180AA3" =
        sampleEnv.toLowerCase sampleConfig.USDT_ADDRESS ∧
      getContractAbi sampleConfig sampleEnv
          (.str "0x5FBDB2315678AFECB367F032D93F642F64180AA3") =
        .ok sampleConfig.MockUSDT_ABI :=
  ⟨by decide,
    (getContractAbi_case_insensitive sampleConfig sampleEnv
      "0x5FBDB2315678AFECB367F032D93F642F64180AA3" sampleConfig.USDT_ADDRESS
      (by decide)).2.1 (by decide)⟩

/-- A failing wait makes the inner `try` block throw. -/
theorem confirm_error_of_waitFails (tx : Tx) (h : waitFails tx) :
    ∃ waitError, confirm tx = .error waitError := by
  rcases h with ⟨e, he⟩ | he | he
  · exact ⟨e, by simp [confirm, he]⟩
  · exact ⟨JsError.new ("Cannot read properties of null (reading \x27" ++ "hash" ++ "\x27)"),
      by simp only [confirm, he, readProp]⟩
  · exact ⟨JsError.new ("Cannot read properties of undefined (reading \x27" ++ "hash" ++ "\x27)"),
      by simp only [confirm, he, readProp]⟩

/-- C9. Local-signing variant: for a request that passes the five checks,
ABI selection, contract construction and signature decomposition, and whose
contract method call resolves to a transaction `tx`, a confirmation wait that
fails (throws, or yields an unreadable receipt) is caught, and the response is
still 200 with body `{success: true, txHash: tx.hash}`. -/
theorem relay_wait_failure_nonfatal (cfg : Config) (env : Env) (body : Body)
    (argList : List JsVal) (abi : JsVal) (contract : Contract) (sig : SignatureParts)
    (tx : Tx)
    (hchecks : firstFailure (fieldChecks env body) = none)
    (hargs : lookupProp body "args" = .arr argList)
    (habi : getContractAbi cfg env (lookupProp body "contractAddress") = .ok abi)
    (hcontract : env.newContract (lookupProp body "contractAddress") abi = .ok contract)
    (hsig : env.signatureFrom (lookupProp body "signature") = .ok sig)
    (hcall : env.callMethod contract (lookupProp body "functionName")
      (argList ++ [sig.v, sig.r, sig.s]) = .ok tx)
    (hwait : waitFails tx) :
    (∃ waitError, confirm tx = .error waitError) ∧
      (relay cfg env body).response =
        { status := 200, body := .obj [("success", .bool true), ("txHash", tx.hash)] } ∧
      (relay cfg env body).calls =
        [.getContractAbi (lookupProp body "contractAddress"),
         .newContract (lookupProp body "contractAddress") abi,
         .signatureFrom (lookupProp body "signature"),
         .contractMethod contract (lookupProp body "functionName")
           (argList ++ [sig.v, sig.r, sig.s]),
         .wait] := by
  refine ⟨confirm_error_of_waitFails tx hwait, ?_, ?_⟩
  · unfold relay
    rw [relayTry_of_checks cfg env body argList hchecks hargs, habi]
    simp only [hcontract, hsig, hcall]
  · rw [relay_calls_eq_try, relayTry_of_checks cfg env body argList hchecks hargs, habi]
    simp only [hcontract, hsig, hcall]

/-- Worked input for C9: a well-formed request whose transaction is sent and
whose confirmation wait throws. -/
theorem relay_wait_failure_nonfatal_witness :
    (relay sampleConfig sampleEnv validBody).response =
      { status := 200, body := .obj [("success", .bool true), ("txHash", .str "0xfeed")] } :=
  (relay_wait_failure_nonfatal sampleConfig sampleEnv validBody
    [.str "0x70997970C51812dc3A010C7d01b50e0d17dc79C8", .num (.fin 100)]
    sampleConfig.MockUSDT_ABI
    { target := .str "0x5fbdb2315678afecb367f032d93f642f64180aa3",
      abi := sampleConfig.MockUSDT_ABI }
    { v := .num (.fin 27), r := .str "0x01", s := .str "0x02" }
    { hash := .str "0xfeed", wait := .error (JsError.new "timeout exceeded") }
    (by decide) rfl rfl rfl rfl rfl
    (Or.inl ⟨JsError.new "timeout exceeded", rfl⟩)).2.1

end Local

end NodeServer
